import Mathlib

/-!
Shallow embedding of `src/assign_driver.py` (student-pickup driver assignment
via a MIP model) and verification of its specification claims.

Modelling conventions:
* spreadsheet cell values and travel times are rationals (`ℚ`); a missing /
  NaN cell is `Option.none`;
* integer decision-variable values are `ℤ`; binary variables are `ℤ` values
  constrained to `0` or `1` (mirroring `cat="Binary"`);
* the PuLP model is embedded as a feasibility predicate (the conjunction of
  the constraints the script adds) together with an objective function;
* solver output is a partial valuation (`Option ℚ` per variable), since PuLP
  leaves `varValue = None` when the solver produced no value.
-/

namespace AssignDriver

/-! ## Constants (lines 22-38 of the source) -/

def SHEET_STUDENT : String := "students"

def SHEET_DRIVER : String := "drivers"

def SHEET_DISTANCE : String := "campus_distance"

def LOCATION_COL : String := "location"

def CAPACITY_COL : String := "capacity"

def BIG_UBER : ℤ := 10 ^ 8

def BIG_DRIVER : ℤ := 10 ^ 5

def SMALL_TRIP : ℤ := 10 ^ 4

def BIG_DISTANCE : ℚ := 10 ^ 6

/-! ## Schema validation (lines 42-54) -/

/-- The shape of the input workbook that the validation code inspects: the
sheet names of the Excel file and the column names of the students and
drivers sheets. -/
structure InputFile where
  sheet_names : List String
  student_cols : List String
  driver_cols : List String

/-- Embeds the schema checks of lines 43-54: the three required sheets must
be present, the students sheet must have a `location` column, and the
drivers sheet must have a `capacity` or `num_students` column; the first
failing check raises `ValueError`. -/
def schema_check (f : InputFile) : Except String Unit :=
  if ¬ (SHEET_STUDENT ∈ f.sheet_names) ∨ ¬ (SHEET_DRIVER ∈ f.sheet_names) ∨
      ¬ (SHEET_DISTANCE ∈ f.sheet_names) then
    Except.error "Excel must contain sheets named: students, drivers and campus_distance"
  else if LOCATION_COL ∉ f.student_cols then
    Except.error "students sheet must have a location column"
  else if CAPACITY_COL ∉ f.driver_cols ∧ "num_students" ∉ f.driver_cols then
    Except.error "drivers sheet must have a capacity (or num_students) column"
  else
    Except.ok ()

/-- Modelled from the spec: section 6 of the spec lists the columns of the
students table as `student_name` and `location`; these are the required
columns the claim about validation refers to. The source only ever reads
the `location` column. -/
def specRequiredStudentCols : List String := ["student_name", "location"]

/-! ## Demand aggregation (lines 62-65) -/

/-- Demand per location: `students_df.groupby("location").size()` counts the
student rows at each location. `studentLocs` is the `location` column of the
students sheet, one entry per student row. -/
def demandOf (studentLocs : List String) (i : String) : ℤ :=
  (studentLocs.count i : ℤ)

/-- Lexicographic order on character lists, as a boolean. -/
def charListLe : List Char → List Char → Bool
  | [], _ => true
  | _ :: _, [] => false
  | a :: as, b :: bs =>
      if a.val < b.val then true
      else if b.val < a.val then false
      else charListLe as bs

/-- Lexicographic order on strings, computed on their character lists. -/
def strLe (a b : String) : Bool :=
  charListLe a.data b.data

/-- Insertion of a string into a sorted list of strings. -/
def insertSorted (a : String) : List String → List String
  | [] => [a]
  | b :: rest => if strLe a b then a :: b :: rest else b :: insertSorted a rest

/-- Insertion sort on strings (ascending). -/
def sortStrings : List String → List String
  | [] => []
  | a :: rest => insertSorted a (sortStrings rest)

/-- The demand locations: the keys of the groupby result, i.e. the distinct
values of the `location` column, which pandas returns in sorted order. -/
def locationsOf (studentLocs : List String) : List String :=
  sortStrings studentLocs.dedup

/-! ## Distance sheet and travel table (lines 48, 67-95) -/

/-- The distance sheet as read with `index_col=0`: a row-label list, a
column-label list, and a cell function where `none` stands for a missing or
NaN cell. -/
structure DistTable where
  rows : List String
  cols : List String
  entry : String → String → Option ℚ

/-- One directed lookup in the distance sheet: the numeric value of cell
`(i, j)` when `i` is a row label, `j` is a column label and the cell is not
NaN (the guard of lines 83-86), and `none` otherwise. -/
def distLookup (d : DistTable) (i j : String) : Option ℚ :=
  if i ∈ d.rows ∧ j ∈ d.cols then d.entry i j else none

/-- The travel dict of lines 78-95: `travel[i][j]` is the forward cell when
it is numeric, otherwise the reverse cell `(j, i)` when that is numeric
(the `val is BIG_DISTANCE` fallback of lines 89-92), otherwise the
`BIG_DISTANCE` sentinel. -/
def travel (d : DistTable) (i j : String) : ℚ :=
  match distLookup d i j with
  | some v => v
  | none =>
    match distLookup d j i with
    | some v => v
    | none => BIG_DISTANCE

/-- The isolated locations of lines 69-71: demand locations missing from
the distance sheet's rows or from its columns
(`missing_rows | missing_cols`; the source sorts this set, which does not
affect membership). -/
def isolated_locations (d : DistTable) (locations : List String) : List String :=
  locations.filter (fun i => !(d.rows.contains i) || !(d.cols.contains i))

/-! ## Pair construction (lines 118-128) -/

/-- Embeds the guard `travel[i][k] is not None` of line 123. The values of
the travel dict are always floats — line 95 stores `val`, which is either
`float(raw)` or the numeric constant `BIG_DISTANCE` — so the comparison
with `None` is always false and the guard always holds. -/
def travelIsNotNone (_v : ℚ) : Bool := true

/-- The pair list of lines 118-124: the double index loop
`for a_idx in range(len(locations)); for b_idx in range(a_idx+1, ...)`
keeps the index-ordered pair `(locations[a_idx], locations[b_idx])`
whenever `travel[i][k] is not None` — which is every pair, since the guard
is vacuous (see `travelIsNotNone`). -/
def pairsOf (locations : List String) (t : String → String → ℚ) :
    List (String × String) :=
  match locations with
  | [] => []
  | i :: rest =>
      (rest.filterMap fun k => if travelIsNotNone (t i k) then some (i, k) else none)
        ++ pairsOf rest t

/-! ## Driver table (lines 98-101) -/

/-- One row of the drivers sheet after the capacity column has been
normalized to `capacity` (lines 56-60): the name from the first column,
already converted with `astype(str)`, and the integer capacity. -/
structure DriverRow where
  driver_name : String
  capacity : ℤ

/-- The drivers list of line 99: the first column of the drivers sheet, one
entry per row, duplicates preserved. -/
def drivers_of (rows : List DriverRow) : List String :=
  rows.map (·.driver_name)

/-- The `driver_caps` dict comprehension of line 101:
`{drivers[i]: cap_series[i] for i in range(len(drivers))}`. Later entries
with the same key overwrite earlier ones, so for a repeated driver name the
last row's capacity wins. -/
def driver_caps (rows : List DriverRow) : String → Option ℤ :=
  rows.foldl (fun f r => fun s => if s = r.driver_name then some r.capacity else f s)
    (fun _ => none)

/-- The key list of a Python dict built by inserting the elements of `l` in
order: first occurrences, in order, each key once. This is the index set
`LpVariable.dicts` produces for the driver axis (lines 108-114), where the
`drivers` list may contain repeated names. -/
def dictKeys (l : List String) : List String :=
  l.foldl (fun acc s => if s ∈ acc then acc else acc ++ [s]) []

/-! ## The optimization model (lines 104-187) -/

/-- The normalized input the model is built from: the demand locations and
per-location demand, the driver key list (the distinct driver names that
index the PuLP variable dicts) with their capacities, and the travel
table. -/
structure ModelInput where
  locations : List String
  demand : String → ℤ
  drivers : List String
  caps : String → ℤ
  travel : String → String → ℚ

/-- The pair list the model of input `inp` is built over (line 118-128). -/
def modelPairs (inp : ModelInput) : List (String × String) :=
  pairsOf inp.locations inp.travel

/-- A point of the model's variable space: `x j i` is the visit flag of
driver `j` at location `i`, `y j i` the pickup count, `u j` the used flag,
`w j idx` the pairing flag of driver `j` for pair index `idx`, and
`uber i` the ride-service leftover at location `i` (lines 106-128, 163). -/
structure Solution where
  x : String → String → ℤ
  y : String → String → ℤ
  u : String → ℤ
  w : String → ℕ → ℤ
  uber : String → ℤ

/-- An integer value of a `cat="Binary"` PuLP variable. -/
def Binary (v : ℤ) : Prop := v = 0 ∨ v = 1

/-- The feasible region of the model: the variable-category bounds
(binary `x`, `u`, `w`; `lowBound=0` on `y` and `uber`) together with the
constraints added at lines 133-167:
capacity link `y ≤ cap * x` (1), total capacity `Σ y ≤ cap * u` (2),
usage linkage `Σ x ≤ 1000 * u` (3), the 2-stop limit `Σ x ≤ 2` (4), the
three pair-linearization inequalities (5), and the demand-cover equality
`Σ_j y + uber = demand` (6). -/
def Feasible (inp : ModelInput) (s : Solution) : Prop :=
  (∀ j ∈ inp.drivers, ∀ i ∈ inp.locations, Binary (s.x j i)) ∧
  (∀ j ∈ inp.drivers, ∀ i ∈ inp.locations, 0 ≤ s.y j i) ∧
  (∀ j ∈ inp.drivers, Binary (s.u j)) ∧
  (∀ j ∈ inp.drivers, ∀ ip ∈ (modelPairs inp).enum, Binary (s.w j ip.1)) ∧
  (∀ i ∈ inp.locations, 0 ≤ s.uber i) ∧
  (∀ j ∈ inp.drivers, ∀ i ∈ inp.locations, s.y j i ≤ inp.caps j * s.x j i) ∧
  (∀ j ∈ inp.drivers, (inp.locations.map (s.y j)).sum ≤ inp.caps j * s.u j) ∧
  (∀ j ∈ inp.drivers, (inp.locations.map (s.x j)).sum ≤ 1000 * s.u j) ∧
  (∀ j ∈ inp.drivers, (inp.locations.map (s.x j)).sum ≤ 2) ∧
  (∀ j ∈ inp.drivers, ∀ ip ∈ (modelPairs inp).enum,
    s.w j ip.1 ≤ s.x j ip.2.1 ∧ s.w j ip.1 ≤ s.x j ip.2.2 ∧
      s.x j ip.2.1 + s.x j ip.2.2 - 1 ≤ s.w j ip.1) ∧
  (∀ i ∈ inp.locations,
    (inp.drivers.map (fun j => s.y j i)).sum + s.uber i = inp.demand i)

instance (inp : ModelInput) (s : Solution) : Decidable (Feasible inp s) := by
  unfold Feasible Binary
  infer_instance

/-- The Uber term of the objective (line 185): `Σ_i uber[i]`. -/
def uber_penalty (inp : ModelInput) (s : Solution) : ℤ :=
  (inp.locations.map s.uber).sum

/-- The driver term of the objective (line 179): `Σ_j u[j]`. -/
def total_drivers_used (inp : ModelInput) (s : Solution) : ℤ :=
  (inp.drivers.map s.u).sum

/-- The travel term of the objective (lines 181-182):
`Σ_j Σ_idx travel[i][k] * w[j][idx]` over the instantiated pairs. -/
def total_travel_time (inp : ModelInput) (s : Solution) : ℚ :=
  (inp.drivers.map (fun j =>
    ((modelPairs inp).enum.map (fun ip =>
      inp.travel ip.2.1 ip.2.2 * (s.w j ip.1 : ℚ))).sum)).sum

/-- The minimized objective of line 187:
`BIG_UBER * uber_penalty + BIG_DRIVER * total_drivers_used +
SMALL_TRIP * total_travel_time`. -/
def objective (inp : ModelInput) (s : Solution) : ℚ :=
  (BIG_UBER : ℚ) * (uber_penalty inp s : ℚ)
    + (BIG_DRIVER : ℚ) * (total_drivers_used inp s : ℚ)
    + (SMALL_TRIP : ℚ) * total_travel_time inp s

/-! ## Solver status logging (lines 191-195) -/

/-- The status whitelist of line 194:
`["Optimal", "Not Solved", "Integer Feasible", "Optimal"]`. -/
def solver_ok_statuses : List String :=
  ["Optimal", "Not Solved", "Integer Feasible", "Optimal"]

/-- Line 194-195: the solver status string is printed exactly when it is
`not in` the whitelist. -/
def status_logged (s : String) : Bool :=
  ! solver_ok_statuses.contains s

/-! ## Result extraction (lines 198-253) -/

/-- The solved variable values as PuLP exposes them: `pulp.value(v)` is the
variable's `varValue`, a float, or `None` when the solver assigned no
value. -/
structure SolvedValues where
  xv : String → String → Option ℚ
  yv : String → String → Option ℚ
  uv : String → Option ℚ
  wv : String → ℕ → Option ℚ
  uberv : String → Option ℚ

/-- Python's `round`: nearest integer, ties to the even integer. The
fractional part of `q` is `(q.num - q.floor * q.den) / q.den`; it is
compared with one half by comparing twice its numerator with the (positive)
denominator. -/
def pyRound (q : ℚ) : ℤ :=
  let f := q.floor
  let r2 := 2 * (q.num - f * (q.den : ℤ))
  if r2 < (q.den : ℤ) then f
  else if (q.den : ℤ) < r2 then f + 1
  else if f % 2 = 0 then f else f + 1

/-- Python's `int` on a float: truncation toward zero. -/
def pyTrunc (q : ℚ) : ℤ :=
  q.num / (q.den : ℤ)

/-- The guarded read `int(round(pulp.value(v) or 0))` used at lines
204-205, 222, 231-233, 236 and 251: `None or 0` yields `0`, so a missing
value is read as zero. -/
def readInt0 (v : Option ℚ) : ℤ :=
  pyRound (v.getD 0)

/-- The unguarded read `int(pulp.value(v))` of line 200: applying `int` to
`None` raises a `TypeError`. -/
def pyIntOfValue (v : Option ℚ) : Except String ℤ :=
  match v with
  | none => Except.error "TypeError: int() argument must not be None"
  | some q => Except.ok (pyTrunc q)

/-- One row of the `driver_assignments` list (lines 211-216). -/
structure AssignRow where
  driver : String
  location : String
  students_picked : ℤ
  stop_flag : ℤ
deriving DecidableEq

/-- The inner loop of lines 203-216 for one driver `j`: a row is appended
for each location whose pickup value `yi` is truthy (nonzero); the locally
built `stops` list and `total_picked` counter of that loop are dead local
state and produce no output. -/
def assignRowsFor (j : String) (locations : List String) (v : SolvedValues) :
    List AssignRow :=
  locations.filterMap fun i =>
    let xi := readInt0 (v.xv j i)
    let yi := readInt0 (v.yv j i)
    if yi ≠ 0 then some ⟨j, i, yi, xi⟩ else none

/-- The `driver_assignments` loop of lines 198-216: for each driver the
loop first evaluates `used = int(pulp.value(u[j]))` — the one read with no
`or 0` guard, which raises when the value is `None` — and then collects the
per-location rows. -/
def driver_assignments_extract (drivers locations : List String)
    (v : SolvedValues) : Except String (List AssignRow) :=
  match drivers with
  | [] => Except.ok []
  | j :: rest => do
      let _used ← pyIntOfValue (v.uv j)
      let rows := assignRowsFor j locations v
      let tail ← driver_assignments_extract rest locations v
      Except.ok (rows ++ tail)

/-- One row of the `driver_summary` list (lines 239-245). -/
structure SummaryRow where
  driver : String
  used : ℤ
  stops : String
  students_picked_total : ℤ
  estimated_travel_time : ℚ
deriving DecidableEq

/-- The `driver_summary` loop of lines 229-245: every read is guarded with
`or 0`, the stops are the locations whose rounded visit value is 1, joined
with a comma, the pickup total is the rounded sum of the raw pickup
values, and the travel time sums `travel[i][k]` over the pair indices
whose rounded `w` value is 1. -/
def driver_summary_extract (drivers locations : List String)
    (prs : List (String × String)) (t : String → String → ℚ)
    (v : SolvedValues) : List SummaryRow :=
  drivers.map fun j =>
    let used := readInt0 (v.uv j)
    let assigned_students :=
      pyRound ((locations.map (fun i => (v.yv j i).getD 0)).sum)
    let stops_list := locations.filter fun i => readInt0 (v.xv j i) = 1
    let travel_time_j :=
      (prs.enum.map (fun ip =>
        if readInt0 (v.wv j ip.1) = 1 then t ip.2.1 ip.2.2 else 0)).sum
    { driver := j
      used := used
      stops := String.intercalate ", " stops_list
      students_picked_total := assigned_students
      estimated_travel_time := travel_time_j }

/-- The Uber leftover extraction of lines 249-253: the locations whose
rounded `uber` value is strictly positive, with that value. -/
def uber_extract (locations : List String) (v : SolvedValues) :
    List (String × ℤ) :=
  locations.filterMap fun i =>
    let left := readInt0 (v.uberv i)
    if 0 < left then some (i, left) else none

/-! ## Concrete scenarios used by the verification theorems -/

/-- A distance sheet with no rows and no columns: every demand location is
isolated. -/
def emptyDist : DistTable :=
  { rows := [], cols := [], entry := fun _ _ => none }

/-- A distance sheet over locations A and B whose off-diagonal travel time
is a legitimately far numeric value, 100000. -/
def farDist : DistTable :=
  { rows := ["A", "B"], cols := ["A", "B"],
    entry := fun i j => if i = j then some 0 else some 100000 }

/-- A distance sheet over locations A and B whose off-diagonal travel time
is 10. -/
def nearDist : DistTable :=
  { rows := ["A", "B"], cols := ["A", "B"],
    entry := fun i j => if i = j then some 0 else some 10 }

/-- An asymmetric distance sheet: cell (A, B) holds 1 and cell (B, A)
holds 2. -/
def asymDist : DistTable :=
  { rows := ["A", "B"], cols := ["A", "B"],
    entry := fun i j =>
      if i = "A" ∧ j = "B" then some 1
      else if i = "B" ∧ j = "A" then some 2
      else none }

/-- A triangular distance sheet: only cell (A, B) is present, holding 5;
the reverse direction has no cell at all. -/
def symDist : DistTable :=
  { rows := ["A"], cols := ["B"],
    entry := fun i j => if i = "A" ∧ j = "B" then some 5 else none }

/-- A one-row drivers sheet: driver d with capacity 2. -/
def dRows : List DriverRow := [⟨"d", 2⟩]

/-- A drivers sheet with two rows sharing the name d, with capacities 3
and 5. -/
def dupRows : List DriverRow := [⟨"d", 3⟩, ⟨"d", 5⟩]

/-- The model input built from one student at A, one student at B, driver d
with capacity 2, and the far distance sheet. -/
def cexInp : ModelInput :=
  { locations := locationsOf ["A", "B"]
    demand := demandOf ["A", "B"]
    drivers := dictKeys (drivers_of dRows)
    caps := fun j => (driver_caps dRows j).getD 0
    travel := travel farDist }

/-- The same scenario with the near distance sheet. -/
def witInp : ModelInput :=
  { locations := locationsOf ["A", "B"]
    demand := demandOf ["A", "B"]
    drivers := dictKeys (drivers_of dRows)
    caps := fun j => (driver_caps dRows j).getD 0
    travel := travel nearDist }

/-- The solution in which driver d visits both locations and picks one
student up at each: no Uber leftover, one used driver, one active pair. -/
def cexA : Solution :=
  { x := fun _ _ => 1
    y := fun _ _ => 1
    u := fun _ => 1
    w := fun _ _ => 1
    uber := fun _ => 0 }

/-- The solution in which the driver stays home and all demand goes to the
ride service. -/
def cexB : Solution :=
  { x := fun _ _ => 0
    y := fun _ _ => 0
    u := fun _ => 0
    w := fun _ _ => 0
    uber := fun _ => 1 }

/-- An input workbook whose students sheet has only a `location` column:
the `student_name` column required by the interface description is
absent. -/
def noNameFile : InputFile :=
  { sheet_names := ["students", "drivers", "campus_distance"]
    student_cols := ["location"]
    driver_cols := ["driver_name", "capacity"] }

/-- The valuation PuLP exposes when the solver assigned no values: every
variable's value is `None`. -/
def noneVals : SolvedValues :=
  { xv := fun _ _ => none
    yv := fun _ _ => none
    uv := fun _ => none
    wv := fun _ _ => none
    uberv := fun _ => none }

/-! ## Helper lemmas -/

lemma snd_mem_of_mem_enum {α : Type} {l : List α} {ip : ℕ × α}
    (h : ip ∈ l.enum) : ip.2 ∈ l := by
  have h1 : l.enum.map Prod.snd = l := List.enum_map_snd l
  rw [← h1]
  exact List.mem_map_of_mem _ h

lemma dictKeys_go_mem (l : List String) :
    ∀ (acc : List String) (j : String),
      j ∈ l.foldl (fun acc s => if s ∈ acc then acc else acc ++ [s]) acc ↔
        j ∈ acc ∨ j ∈ l := by
  induction l with
  | nil => intro acc j; simp
  | cons s l ih =>
    intro acc j
    simp only [List.foldl_cons]
    by_cases hs : s ∈ acc
    · rw [if_pos hs, ih]
      constructor
      · rintro (h | h)
        · exact Or.inl h
        · exact Or.inr (List.mem_cons_of_mem _ h)
      · rintro (h | h)
        · exact Or.inl h
        · rcases List.mem_cons.1 h with rfl | h
          · exact Or.inl hs
          · exact Or.inr h
    · rw [if_neg hs, ih]
      simp [List.mem_append, List.mem_cons, or_assoc]

lemma dictKeys_go_nodup (l : List String) :
    ∀ acc : List String,
      acc.Nodup →
        (l.foldl (fun acc s => if s ∈ acc then acc else acc ++ [s]) acc).Nodup := by
  induction l with
  | nil => intro acc h; simp only [List.foldl_nil]; exact h
  | cons s l ih =>
    intro acc h
    simp only [List.foldl_cons]
    by_cases hs : s ∈ acc
    · rw [if_pos hs]; exact ih acc h
    · rw [if_neg hs]
      refine ih _ ?_
      simp [List.nodup_append, h, hs]

lemma driver_caps_go (rows : List DriverRow) (f : String → Option ℤ)
    (j : String) :
    (rows.foldl
        (fun f r => fun s => if s = r.driver_name then some r.capacity else f s)
        f) j =
      ((rows.reverse.find? fun r => decide (j = r.driver_name)).map
          (·.capacity)).or (f j) := by
  induction rows using List.reverseRecOn generalizing f with
  | nil => simp
  | append_singleton rows r ih =>
    rw [List.foldl_append]
    simp only [List.foldl_cons, List.foldl_nil, List.reverse_append,
      List.reverse_singleton, List.singleton_append, List.find?_cons]
    by_cases hj : j = r.driver_name
    · simp [hj]
    · simp only [hj, if_neg hj, decide_eq_true_eq]
      rw [if_neg (by simp [hj])]
      exact ih f

lemma mem_of_mem_pairsOf {locs : List String} {t : String → String → ℚ}
    {p : String × String} (hp : p ∈ pairsOf locs t) :
    p.1 ∈ locs ∧ p.2 ∈ locs := by
  induction locs with
  | nil => simp [pairsOf] at hp
  | cons i rest ih =>
    simp only [pairsOf, travelIsNotNone, if_true, List.mem_append,
      List.mem_filterMap] at hp
    rcases hp with ⟨k, hk, hpk⟩ | hp
    · obtain rfl : (i, k) = p := Option.some.inj hpk
      exact ⟨List.mem_cons_self _ _, List.mem_cons_of_mem _ hk⟩
    · exact ⟨List.mem_cons_of_mem _ (ih hp).1, List.mem_cons_of_mem _ (ih hp).2⟩

end AssignDriver

namespace AssignDriver

/-! ## Theorems -/

/-- C3: in every feasible solution of the built model, for every demand
location, the total driver pickups at the location plus its ride-service
leftover equal the aggregate demand there exactly — the `demand_cover`
equality constraints of lines 165-167. -/
theorem demand_cover_of_feasible (inp : ModelInput) (s : Solution)
    (h : Feasible inp s) (i : String) (hi : i ∈ inp.locations) :
    (inp.drivers.map (fun j => s.y j i)).sum + s.uber i = inp.demand i := by
  obtain ⟨_, _, _, _, _, _, _, _, _, _, hcov⟩ := h
  exact hcov i hi

/-- C3 witness: the coverage equality, instantiated at the 2-location,
1-driver scenario with the solution in which driver d takes both
students. -/
theorem demand_cover_witness :
    Feasible witInp cexA ∧ "A" ∈ witInp.locations ∧
      (witInp.drivers.map (fun j => cexA.y j "A")).sum + cexA.uber "A" =
        witInp.demand "A" :=
  ⟨by decide, by decide,
    demand_cover_of_feasible witInp cexA (by decide) "A" (by decide)⟩

/-- C10: in every feasible solution of the built model, the ride-service
leftover of every location lies between 0 and the location's demand: a
consequence of the `lowBound=0` bounds on `y` and `uber` together with the
coverage equality. -/
theorem uber_within_demand (inp : ModelInput) (s : Solution)
    (h : Feasible inp s) (i : String) (hi : i ∈ inp.locations) :
    0 ≤ s.uber i ∧ s.uber i ≤ inp.demand i := by
  obtain ⟨_, hy, _, _, hub, _, _, _, _, _, hcov⟩ := h
  refine ⟨hub i hi, ?_⟩
  have hsum : 0 ≤ (inp.drivers.map (fun j => s.y j i)).sum := by
    apply List.sum_nonneg
    intro a ha
    obtain ⟨j, hj, rfl⟩ := List.mem_map.1 ha
    exact hy j hj i hi
  have hc := hcov i hi
  omega

/-- C10 witness: the leftover bounds, instantiated at the all-Uber solution
of the 2-location scenario. -/
theorem uber_within_demand_witness :
    Feasible witInp cexB ∧ "A" ∈ witInp.locations ∧
      (0 ≤ cexB.uber "A" ∧ cexB.uber "A" ≤ witInp.demand "A") :=
  ⟨by decide, by decide,
    uber_within_demand witInp cexB (by decide) "A" (by decide)⟩

/-- C6: in every feasible solution, for every driver and every instantiated
pair, the pairing variable equals 1 exactly when both endpoint visit flags
equal 1: the three linearization inequalities of lines 157-159 force the
logical AND. -/
theorem pair_iff_visits (inp : ModelInput) (s : Solution)
    (h : Feasible inp s) (j : String) (hj : j ∈ inp.drivers)
    (ip : ℕ × String × String) (hip : ip ∈ (modelPairs inp).enum) :
    s.w j ip.1 = 1 ↔ (s.x j ip.2.1 = 1 ∧ s.x j ip.2.2 = 1) := by
  obtain ⟨hx, _, _, hw, _, _, _, _, _, hpl, _⟩ := h
  have hm := mem_of_mem_pairsOf (snd_mem_of_mem_enum hip)
  have hbx1 := hx j hj ip.2.1 hm.1
  have hbx2 := hx j hj ip.2.2 hm.2
  have hbw := hw j hj ip hip
  obtain ⟨h1, h2, h3⟩ := hpl j hj ip hip
  unfold Binary at hbx1 hbx2 hbw
  rcases hbw with hb | hb <;> rcases hbx1 with ha | ha <;>
    rcases hbx2 with hc | hc <;> rw [hb, ha, hc] <;> omega

/-- C2 counterexample: in the built model for one driver of capacity 2 and
two demand-1 locations whose sheet travel time is 100000, the solution in
which the driver takes both students has strictly fewer Uber students than
the all-Uber solution, yet a strictly larger objective value — the weights
10^8, 10^5, 10^4 do not dominate an unbounded travel-time term. -/
theorem lex_dominance_counterexample :
    Feasible cexInp cexA ∧ Feasible cexInp cexB ∧
      uber_penalty cexInp cexA < uber_penalty cexInp cexB ∧
      ¬ (objective cexInp cexA < objective cexInp cexB) := by
  refine ⟨by decide, by decide, by decide, ?_⟩
  have hd : cexInp.drivers = ["d"] := by decide
  have hp : modelPairs cexInp = [("A", "B")] := by decide
  have hl : cexInp.locations = ["A", "B"] := by decide
  have ht : cexInp.travel "A" "B" = 100000 := by decide
  unfold objective total_travel_time uber_penalty total_drivers_used
  rw [hd, hp, hl]
  simp [cexA, cexB, List.enum, List.enumFrom, ht]
  norm_num [BIG_UBER, BIG_DRIVER, SMALL_TRIP]

/-- C2 amended: the dominance of the Uber term holds under a bound: when
every instantiated pair's travel value is nonnegative and solution A's
driver and travel terms weigh in below `BIG_UBER`, any feasible A with
strictly fewer Uber students than a feasible B has a strictly smaller
objective value. -/
theorem lex_dominance_amended (inp : ModelInput) (A B : Solution)
    (_hA : Feasible inp A) (hB : Feasible inp B)
    (htrav : ∀ p ∈ modelPairs inp, 0 ≤ inp.travel p.1 p.2)
    (hbound : (BIG_DRIVER : ℚ) * (total_drivers_used inp A : ℚ)
        + (SMALL_TRIP : ℚ) * total_travel_time inp A < (BIG_UBER : ℚ))
    (hlt : uber_penalty inp A < uber_penalty inp B) :
    objective inp A < objective inp B := by
  obtain ⟨_, _, huB, hwB, _, _, _, _, _, _, _⟩ := hB
  have hdB : (0 : ℤ) ≤ total_drivers_used inp B := by
    apply List.sum_nonneg
    intro a ha
    obtain ⟨j, hj, rfl⟩ := List.mem_map.1 ha
    rcases huB j hj with h | h <;> omega
  have htB : (0 : ℚ) ≤ total_travel_time inp B := by
    apply List.sum_nonneg
    intro a ha
    obtain ⟨j, hj, rfl⟩ := List.mem_map.1 ha
    apply List.sum_nonneg
    intro b hb
    obtain ⟨ip, hip, rfl⟩ := List.mem_map.1 hb
    have h1 : 0 ≤ inp.travel ip.2.1 ip.2.2 := htrav ip.2 (snd_mem_of_mem_enum hip)
    have h2 : (0 : ℚ) ≤ (B.w j ip.1 : ℚ) := by
      rcases hwB j hj ip hip with h | h <;> simp [h]
    exact mul_nonneg h1 h2
  have hu1 : (uber_penalty inp A : ℚ) + 1 ≤ (uber_penalty inp B : ℚ) := by
    exact_mod_cast hlt
  have hdB' : (0 : ℚ) ≤ (total_drivers_used inp B : ℤ) := by exact_mod_cast hdB
  unfold objective
  simp only [BIG_UBER, BIG_DRIVER, SMALL_TRIP] at *
  push_cast at *
  nlinarith [hu1, hdB', htB, hbound]

/-- C2 amended witness: the bounded dominance, instantiated at the
2-location scenario with travel time 10: driving both students out beats
sending both to the ride service. -/
theorem lex_dominance_amended_witness :
    Feasible witInp cexA ∧ Feasible witInp cexB ∧
      (∀ p ∈ modelPairs witInp, 0 ≤ witInp.travel p.1 p.2) ∧
      ((BIG_DRIVER : ℚ) * (total_drivers_used witInp cexA : ℚ)
          + (SMALL_TRIP : ℚ) * total_travel_time witInp cexA < (BIG_UBER : ℚ)) ∧
      uber_penalty witInp cexA < uber_penalty witInp cexB ∧
      objective witInp cexA < objective witInp cexB := by
  have hbound : (BIG_DRIVER : ℚ) * (total_drivers_used witInp cexA : ℚ)
      + (SMALL_TRIP : ℚ) * total_travel_time witInp cexA < (BIG_UBER : ℚ) := by
    have hd : witInp.drivers = ["d"] := by decide
    have hp : modelPairs witInp = [("A", "B")] := by decide
    have ht : witInp.travel "A" "B" = 10 := by decide
    unfold total_travel_time total_drivers_used
    rw [hd, hp]
    simp [cexA, List.enum, List.enumFrom, ht]
    norm_num [BIG_UBER, BIG_DRIVER, SMALL_TRIP]
  exact ⟨by decide, by decide, by decide, hbound, by decide,
    lex_dominance_amended witInp cexA cexB (by decide) (by decide) (by decide)
      hbound (by decide)⟩

/-- C6 witness: the AND characterization, instantiated at the active pair
of the 2-location scenario's driving solution. -/
theorem pair_iff_visits_witness :
    Feasible witInp cexA ∧ "d" ∈ witInp.drivers ∧
      (0, ("A", "B")) ∈ (modelPairs witInp).enum ∧
      (cexA.w "d" 0 = 1 ↔ (cexA.x "d" "A" = 1 ∧ cexA.x "d" "B" = 1)) :=
  ⟨by decide, by decide, by decide,
    pair_iff_visits witInp cexA (by decide) "d" (by decide) (0, ("A", "B"))
      (by decide)⟩

/-- C1: with a students sheet placing one student at A and one at B and an
empty distance sheet, neither direction of the pair (A, B) has a numeric
entry and both locations are isolated, yet the pair IS instantiated — the
guard `travel[i][k] is not None` of line 123 compares a float with `None`
and never fires, so the pair enters the variable set with the sentinel
cost `BIG_DISTANCE`, contradicting the claim and the source's own comment
`only allow pairs with valid distance`. -/
theorem isolated_pair_still_instantiated :
    locationsOf ["A", "B"] = ["A", "B"] ∧
      distLookup emptyDist "A" "B" = none ∧
      distLookup emptyDist "B" "A" = none ∧
      isolated_locations emptyDist (locationsOf ["A", "B"]) = ["A", "B"] ∧
      pairsOf (locationsOf ["A", "B"]) (travel emptyDist) = [("A", "B")] ∧
      travel emptyDist "A" "B" = BIG_DISTANCE := by
  refine ⟨by decide, by decide, by decide, by decide, by decide, by decide⟩

/-- C4 counterexample: for the drivers table with two rows both named d
(capacities 3 and 5), the PuLP variable dicts are keyed by the single
distinct name — one variable set, not one per row — and the capacity dict
keeps only the last row's capacity, so the first row's capacity 3 is
lost. -/
theorem driver_rows_dedup_counterexample :
    drivers_of dupRows = ["d", "d"] ∧
      dictKeys (drivers_of dupRows) = ["d"] ∧
      ¬ ((dictKeys (drivers_of dupRows)).length = dupRows.length) ∧
      driver_caps dupRows "d" = some 5 := by
  refine ⟨by decide, by decide, by decide, by decide⟩

/-- C4 amended: driver rows are keyed by name, not kept per row: the
variable index set contains each distinct driver name exactly once (every
name of the rows, no duplicates), and the capacity associated with a name
is the capacity of the last row carrying it. -/
theorem driver_keys_by_name (rows : List DriverRow) (j : String) :
    (dictKeys (drivers_of rows)).Nodup ∧
      (j ∈ dictKeys (drivers_of rows) ↔ j ∈ drivers_of rows) ∧
      driver_caps rows j =
        ((rows.reverse.find? fun r => decide (j = r.driver_name)).map
          (·.capacity)) := by
  refine ⟨?_, ?_, ?_⟩
  · exact dictKeys_go_nodup _ [] List.nodup_nil
  · rw [dictKeys, dictKeys_go_mem]
    simp
  · rw [driver_caps, driver_caps_go]
    simp

/-- C5: when the solver assigned no variable values (every `varValue` is
`None`), the `driver_assignments` extraction loop raises at its first
driver — line 200 reads `int(pulp.value(u[j]))` without the `or 0` guard
used everywhere else — while the summary and Uber extractions, whose reads
are all guarded, do complete with zero values. -/
theorem extract_raises_on_undefined_values :
    driver_assignments_extract ["d"] ["A"] noneVals =
        Except.error "TypeError: int() argument must not be None" ∧
      driver_summary_extract ["d"] ["A"] (pairsOf ["A"] (travel emptyDist))
          (travel emptyDist) noneVals = [⟨"d", 0, "", 0, 0⟩] ∧
      uber_extract ["A"] noneVals = [] := by
  refine ⟨rfl, ?_, rfl⟩
  have h0 : readInt0 none = 0 := by decide
  have h1 : pyRound 0 = 0 := by decide
  simp [driver_summary_extract, noneVals, h0, h1, pairsOf, String.intercalate]

/-- C7 counterexample: an input workbook with all three sheets, a students
sheet carrying only a `location` column and a drivers sheet with
`driver_name` and `capacity` passes validation, although the required
column `student_name` of the students table is absent — the name columns
are never checked. -/
theorem schema_missing_column_unchecked :
    schema_check noNameFile = Except.ok () ∧
      "student_name" ∈ specRequiredStudentCols ∧
      "student_name" ∉ noNameFile.student_cols := by
  refine ⟨rfl, by decide, by decide⟩

/-- C7 amended: the validation error is raised, before any model is built,
exactly when one of the three required sheets is absent, or the students
sheet lacks a `location` column, or the drivers sheet lacks both
`capacity` and `num_students`; the `student_name` and `driver_name`
columns are not validated. -/
theorem schema_check_ok_iff (f : InputFile) :
    schema_check f = Except.ok () ↔
      (SHEET_STUDENT ∈ f.sheet_names ∧ SHEET_DRIVER ∈ f.sheet_names ∧
        SHEET_DISTANCE ∈ f.sheet_names ∧ LOCATION_COL ∈ f.student_cols ∧
        (CAPACITY_COL ∈ f.driver_cols ∨ "num_students" ∈ f.driver_cols)) := by
  unfold schema_check
  by_cases h1 : ¬ (SHEET_STUDENT ∈ f.sheet_names) ∨ ¬ (SHEET_DRIVER ∈ f.sheet_names) ∨
      ¬ (SHEET_DISTANCE ∈ f.sheet_names)
  · rw [if_pos h1]
    simp only [reduceCtorEq, false_iff]
    tauto
  · rw [if_neg h1]
    push_neg at h1
    by_cases h2 : LOCATION_COL ∉ f.student_cols
    · rw [if_pos h2]
      simp only [reduceCtorEq, false_iff]
      tauto
    · rw [if_neg h2]
      by_cases h3 : CAPACITY_COL ∉ f.driver_cols ∧ "num_students" ∉ f.driver_cols
      · rw [if_pos h3]
        simp only [reduceCtorEq, false_iff]
        tauto
      · rw [if_neg h3]
        simp only [true_iff]
        by_cases hc : CAPACITY_COL ∈ f.driver_cols
        · exact ⟨h1.1, h1.2.1, h1.2.2, not_not.1 h2, Or.inl hc⟩
        · have hn : ¬ ("num_students" ∉ f.driver_cols) := fun hn => h3 ⟨hc, hn⟩
          exact ⟨h1.1, h1.2.1, h1.2.2, not_not.1 h2, Or.inr (not_not.1 hn)⟩

/-- C8 counterexample: with a distance sheet whose cell (A, B) holds 1 and
whose cell (B, A) holds 2, the normalized travel table is not symmetric:
the forward direction always wins when it is numeric, so travel A B = 1
while travel B A = 2. -/
theorem travel_asymmetric_counterexample :
    travel asymDist "A" "B" = 1 ∧ travel asymDist "B" "A" = 2 ∧
      ¬ (travel asymDist "A" "B" = travel asymDist "B" "A") := by
  refine ⟨by decide, by decide, by decide⟩

/-- C8 amended: the travel lookup resolves the forward cell when numeric,
falling back to the reverse cell and to the sentinel only when neither
direction is numeric; the values for (i, j) and (j, i) coincide whenever
the two directions do not carry distinct numeric entries, i.e. the table
is symmetric provided the distance sheet is symmetric where both cells are
present. -/
theorem travel_symm_of_compatible (d : DistTable) (i j : String)
    (h : distLookup d i j = none ∨ distLookup d j i = none ∨
        distLookup d i j = distLookup d j i) :
    travel d i j = travel d j i := by
  unfold travel
  cases hf : distLookup d i j with
  | none =>
    cases hb : distLookup d j i with
    | none => rfl
    | some v => rfl
  | some v =>
    cases hb : distLookup d j i with
    | none => rfl
    | some v' =>
      rcases h with h | h | h
      · exact absurd hf (by rw [h]; exact fun hc => Option.noConfusion hc)
      · exact absurd hb (by rw [h]; exact fun hc => Option.noConfusion hc)
      · rw [hf, hb] at h
        rw [Option.some.inj h]

/-- C8 witness: the conditional symmetry, instantiated at the triangular
sheet holding only cell (A, B) = 5. -/
theorem travel_symm_witness :
    (distLookup symDist "A" "B" = none ∨ distLookup symDist "B" "A" = none ∨
        distLookup symDist "A" "B" = distLookup symDist "B" "A") ∧
      travel symDist "A" "B" = travel symDist "B" "A" :=
  ⟨by decide, travel_symm_of_compatible symDist "A" "B" (by decide)⟩

/-- C9 counterexample: the terminal status `Not Solved` is not optimal,
yet line 194 lists it among the statuses for which no message is printed,
so a run ending in `Not Solved` emits no status message. -/
theorem status_not_solved_unlogged :
    status_logged "Not Solved" = false ∧ "Not Solved" ≠ "Optimal" := by
  refine ⟨by decide, by decide⟩

/-- C9 amended: a status message is emitted exactly for the statuses
outside the whitelist of line 194 — every status other than `Optimal`,
`Not Solved` and `Integer Feasible` is logged; in particular `Infeasible`
and `Undefined` are logged, while `Not Solved` is not. -/
theorem status_logged_iff :
    (∀ s : String, status_logged s = true ↔
        (s ≠ "Optimal" ∧ s ≠ "Not Solved" ∧ s ≠ "Integer Feasible")) ∧
      status_logged "Infeasible" = true ∧
      status_logged "Undefined" = true := by
  refine ⟨?_, by decide, by decide⟩
  intro s
  have hmem : solver_ok_statuses.contains s = true ↔ s ∈ solver_ok_statuses :=
    List.elem_iff
  constructor
  · intro h
    have hs : s ∉ solver_ok_statuses := by
      intro hc
      rw [status_logged, hmem.2 hc] at h
      exact Bool.noConfusion h
    simp only [solver_ok_statuses, List.mem_cons, List.not_mem_nil, or_false,
      not_or] at hs
    exact ⟨hs.1, hs.2.1, hs.2.2.1⟩
  · rintro ⟨h1, h2, h3⟩
    rw [status_logged, Bool.not_eq_true']
    rw [Bool.eq_false_iff]
    intro hc
    have hin := hmem.1 hc
    simp only [solver_ok_statuses, List.mem_cons, List.not_mem_nil,
      or_false] at hin
    rcases hin with h | h | h | h
    · exact h1 h
    · exact h2 h
    · exact h3 h
    · exact h1 h

end AssignDriver
